import Mathlib

/-!
Verification development for the `mpc` crate of the repository
(`src/mpc/src/serialization.rs`, `src/mpc/src/native_token.rs`,
`src/mpc/src/main.rs`).  Bytes are modelled as `Nat`, Rust byte slices as
`List Nat`, and fallible Rust code as `Except` / an explicit outcome type
that also records the possibility of a panic (out-of-bounds slice
indexing).  The external curve library (`curv` / `multi_party_eddsa`) is
treated as an opaque primitive at its boundary, exactly as §6 of the spec
prescribes: its point/scalar encode–decode functions are parameters
(`CurveLib`), and each theorem states explicitly which contract of the
black box it relies on.  Compressed points are taken to be 33 bytes wide,
the width the decoder's field slices in `serialization.rs` actually read.
-/

namespace MpcSpec

/-- Mirror of `curv::ErrorKey`, the error returned by the curve library's
`Point::from_bytes` / `Scalar::from_bytes` (an external opaque enum; one
representative variant suffices, no claim distinguishes variants). -/
inductive ErrorKey where
  | InvalidPublicKey
deriving DecidableEq, Repr

/-- Error type mirroring `enum Error` of `src/mpc/src/serialization.rs`
lines 10–31.  Payloads of external error types (`Bs58Error`,
`ClientError`, `ed25519_dalek::SignatureError`, the boxed inner error of
`DeserializationFailed`) are elided to the variants themselves, since no
claim inspects them. -/
inductive Error where
  | WrongNetwork (net : String)
  | BadBase58
  | WrongKeyPair
  | AirdropFailed
  | RecentHashFailed
  | ConfirmingTransactionFailed
  | BalaceFailed
  | SendTransactionFailed
  | DeserializationFailed (field_name : String)
  | MismatchMessages
  | InvalidSignature
  | KeyPairIsNotInKeys
  | InvalidPoint (e : ErrorKey)
  | InvalidScalar (e : ErrorKey)
  | BufferTooShort
  | InvalidPubkey
deriving DecidableEq, Repr

/-- Outcome of running a fallible Rust function that may also panic
(out-of-bounds slice indexing `&buffer[a..b]` with `b > buffer.len()`). -/
inductive DOutcome (α : Type) where
  | panics
  | fails (e : Error)
  | ok (v : α)
deriving DecidableEq, Repr

instance {ε α : Type} [DecidableEq ε] [DecidableEq α] :
    DecidableEq (Except ε α) := fun x y =>
  match x, y with
  | .ok a, .ok b =>
      if h : a = b then isTrue (by rw [h])
      else isFalse (by intro hh; cases hh; exact h rfl)
  | .error a, .error b =>
      if h : a = b then isTrue (by rw [h])
      else isFalse (by intro hh; cases hh; exact h rfl)
  | .ok _, .error _ => isFalse (by intro hh; cases hh)
  | .error _, .ok _ => isFalse (by intro hh; cases hh)

/-- A `solana_sdk::pubkey::Pubkey`: 32 raw bytes. -/
abbrev Pubkey := { bs : List Nat // bs.length = 32 }

/-- A `solana_sdk::signature::Signature`: 64 raw bytes. -/
abbrev Signature := { bs : List Nat // bs.length = 64 }

/-- Boundary model of the external curve library (`curv`): compressed
point and scalar encode/decode.  `pointToBytes` stands for
`Point::to_bytes(true)`, `pointFromBytes` for `Point::from_bytes`, and
likewise for scalars.  `P` and `S` are the library's point and scalar
types, opaque to this development. -/
structure CurveLib (P S : Type) where
  pointToBytes : P → List Nat
  pointFromBytes : List Nat → Except ErrorKey P
  scalarToBytes : S → List Nat
  scalarFromBytes : List Nat → Except ErrorKey S

/-- Mirror of `multi_party_eddsa::protocols::musig2::PublicPartialNonces`:
a fixed pair of public nonce points `R`. -/
structure PublicPartialNonces (P : Type) where
  R : P × P
deriving DecidableEq

/-- Mirror of `multi_party_eddsa::protocols::musig2::PrivatePartialNonces`:
a fixed pair of secret nonce scalars `k`. -/
structure PrivatePartialNonces (S : Type) where
  k : S × S
deriving DecidableEq

/-- Mirror of `AggMessage1` (`serialization.rs` lines 93–97). -/
structure AggMessage1 (P : Type) where
  sender : Pubkey
  public_nonces : PublicPartialNonces P
deriving DecidableEq

/-- Mirror of `SecretAggStepOne` (`serialization.rs` lines 130–133). -/
structure SecretAggStepOne (P S : Type) where
  private_nonces : PrivatePartialNonces S
  public_nonces : PublicPartialNonces P
deriving DecidableEq

/-- Mirror of `PartialSignature` (`serialization.rs` line 169). -/
structure PartialSignature where
  sig : Signature
deriving DecidableEq

/-- Length guard constant of `AggMessage1::deserialize`
(`serialization.rs` line 112): the code writes `buffer.len() < 32 + 64`. -/
def aggMessage1Guard : Nat := 32 + 64

/-- Length guard constant of `SecretAggStepOne::deserialize`
(`serialization.rs` line 151): the code writes `buffer.len() < 128`. -/
def secretAggStepOneGuard : Nat := 128

/-- Length guard constant of `PartialSignature::deserialize`
(`serialization.rs` line 179): the code writes `buffer.len() < 64`. -/
def partialSignatureGuard : Nat := 64

/-- Mirror of `impl Serialize for AggMessage1` (`serialization.rs` lines
99–108): append the 32 sender bytes, then `to_bytes(true)` of each of the
two public nonce points, to `buffer`. -/
def AggMessage1.serialize {P S : Type} (L : CurveLib P S) (m : AggMessage1 P)
    (buffer : List Nat) : List Nat :=
  buffer ++ m.sender.val ++ L.pointToBytes m.public_nonces.R.1
    ++ L.pointToBytes m.public_nonces.R.2

/-- Mirror of `impl Deserialize for AggMessage1` (`serialization.rs` lines
110–128).  Slices are `take`/`drop` compositions; the slice
`&buffer[65..98]` panics exactly when `buffer.len() < 98` (the earlier
slices `[0..32]` and `[32..65]` are always in range once the
`buffer.len() < 32 + 64` guard has passed, and the `?` on
`Point::from_bytes` of the first slice returns before the second slice is
taken). -/
def AggMessage1.deserialize {P S : Type} (L : CurveLib P S)
    (buffer : List Nat) : DOutcome (AggMessage1 P) :=
  if h : buffer.length < aggMessage1Guard then .fails .BufferTooShort
  else
    -- Pubkey::new(&buffer[0..32])
    let sender : Pubkey :=
      ⟨buffer.take 32, by
        simp only [List.length_take, aggMessage1Guard] at *; omega⟩
    -- Point::from_bytes(&buffer[32..65]).map_err(Error::InvalidPoint)?
    match L.pointFromBytes ((buffer.drop 32).take 33) with
    | .error e => .fails (.InvalidPoint e)
    | .ok r1 =>
      -- &buffer[65..98] panics when the buffer is shorter than 98 bytes
      if buffer.length < 98 then .panics
      else
        match L.pointFromBytes ((buffer.drop 65).take 33) with
        | .error e => .fails (.InvalidPoint e)
        | .ok r2 => .ok ⟨sender, ⟨(r1, r2)⟩⟩

/-- Mirror of `impl Serialize for SecretAggStepOne` (`serialization.rs`
lines 135–147): append `to_bytes` of the two private nonce scalars, then
`to_bytes(true)` of the two public nonce points. -/
def SecretAggStepOne.serialize {P S : Type} (L : CurveLib P S)
    (m : SecretAggStepOne P S) (buffer : List Nat) : List Nat :=
  buffer ++ L.scalarToBytes m.private_nonces.k.1
    ++ L.scalarToBytes m.private_nonces.k.2
    ++ L.pointToBytes m.public_nonces.R.1
    ++ L.pointToBytes m.public_nonces.R.2

/-- Mirror of `impl Deserialize for SecretAggStepOne` (`serialization.rs`
lines 149–166).  The slices `[0..32]`, `[32..64]`, `[64..97]` are always
in range once the `buffer.len() < 128` guard has passed; the slice
`&buffer[97..130]` panics exactly when `buffer.len() < 130`. -/
def SecretAggStepOne.deserialize {P S : Type} (L : CurveLib P S)
    (buffer : List Nat) : DOutcome (SecretAggStepOne P S) :=
  if buffer.length < secretAggStepOneGuard then .fails .BufferTooShort
  else
    match L.scalarFromBytes (buffer.take 32) with
    | .error e => .fails (.InvalidScalar e)
    | .ok k1 =>
      match L.scalarFromBytes ((buffer.drop 32).take 32) with
      | .error e => .fails (.InvalidScalar e)
      | .ok k2 =>
        match L.pointFromBytes ((buffer.drop 64).take 33) with
        | .error e => .fails (.InvalidPoint e)
        | .ok r1 =>
          if buffer.length < 130 then .panics
          else
            match L.pointFromBytes ((buffer.drop 97).take 33) with
            | .error e => .fails (.InvalidPoint e)
            | .ok r2 => .ok ⟨⟨(k1, k2)⟩, ⟨(r1, r2)⟩⟩

/-- Mirror of `impl Serialize for PartialSignature` (`serialization.rs`
lines 171–175): append the 64 signature bytes. -/
def PartialSignature.serialize (m : PartialSignature)
    (buffer : List Nat) : List Nat :=
  buffer ++ m.sig.val

/-- Mirror of `impl Deserialize for PartialSignature` (`serialization.rs`
lines 177–186): reject buffers shorter than 64 bytes, otherwise build the
signature from `&buffer[0..64]` (trailing bytes ignored). -/
def PartialSignature.deserialize (buffer : List Nat) :
    DOutcome PartialSignature :=
  if h : buffer.length < partialSignatureGuard then .fails .BufferTooShort
  else
    .ok ⟨⟨buffer.take 64, by
      simp only [List.length_take, partialSignatureGuard] at *; omega⟩⟩

/-- Concrete instantiation of the curve-library boundary used by the
closed witnesses: points and scalars are trivial, a point's canonical
compressed encoding is 33 zero bytes, a scalar's is 32 zero bytes, and
any other byte string is rejected. -/
def toyLib : CurveLib Unit Unit where
  pointToBytes := fun _ => List.replicate 33 0
  pointFromBytes := fun bs =>
    if bs = List.replicate 33 0 then .ok () else .error .InvalidPublicKey
  scalarToBytes := fun _ => List.replicate 32 0
  scalarFromBytes := fun bs =>
    if bs = List.replicate 32 0 then .ok () else .error .InvalidPublicKey

/-- Fixed all-zero public key used by closed witnesses. -/
def pk0 : Pubkey := ⟨List.replicate 32 0, by simp⟩

/-! Model of `src/mpc/src/native_token.rs` and the pieces of the Solana
SDK it calls, at their boundary. -/

/-- Mirror of `solana_sdk::instruction::AccountMeta`. -/
structure AccountMeta where
  pubkey : Pubkey
  is_signer : Bool
  is_writable : Bool
deriving DecidableEq

/-- Mirror of `solana_sdk::instruction::Instruction`: a program id, the
account metas, and the raw instruction data bytes. -/
structure Instruction where
  program_id : Pubkey
  accounts : List AccountMeta
  data : List Nat
deriving DecidableEq

/-- The Solana system program id (`11111111111111111111111111111111`):
32 zero bytes. -/
def system_program_id : Pubkey := ⟨List.replicate 32 0, by simp⟩

/-- The `spl_memo` program id
(`MemoSq4gqABAXKb96qnH8TysNcWxMyWCqXgDLGmfcHr`), base58-decoded. -/
def spl_memo_id : Pubkey :=
  ⟨[5, 74, 83, 90, 153, 41, 33, 6, 77, 36, 232, 113, 96, 218, 56, 124,
    124, 53, 181, 221, 188, 146, 187, 129, 228, 31, 168, 64, 65, 5, 68,
    141], by rfl⟩

/-- Little-endian byte encoding of a `u64` value. -/
def u64LeBytes (n : Nat) : List Nat :=
  (List.range 8).map fun i => n / 256 ^ i % 256

/-- Mirror of `solana_sdk::system_instruction::transfer`: the system
program, `from` as writable signer and `to` as writable, and the bincode
encoding of `SystemInstruction::Transfer` (little-endian `u32` variant
index 2, then the little-endian `u64` lamport amount). -/
def system_instruction.transfer (source dest : Pubkey) (lamports : Nat) :
    Instruction where
  program_id := system_program_id
  accounts := [⟨source, true, true⟩, ⟨dest, false, true⟩]
  data := [2, 0, 0, 0] ++ u64LeBytes lamports

/-- Mirror of `solana_program::instruction::Instruction::new_with_bytes`. -/
def Instruction.new_with_bytes (program_id : Pubkey) (data : List Nat)
    (accounts : List AccountMeta) : Instruction :=
  ⟨program_id, accounts, data⟩

/-- Mirror of `solana_sdk::transaction::Transaction` at the boundary the
claims need: the fee payer recorded by `new_with_payer` and the ordered
instruction list.  The serialized wire form of a transaction is a function
of this data, so equal `Transaction` values serialize to identical
bytes. -/
structure Transaction where
  fee_payer : Option Pubkey
  instructions : List Instruction
deriving DecidableEq

/-- Mirror of `Transaction::new_with_payer`. -/
def Transaction.new_with_payer (instructions : List Instruction)
    (payer : Option Pubkey) : Transaction :=
  ⟨payer, instructions⟩

/-- Mirror of `sol_to_lamports` (`native_token.rs` lines 7–9 and the
inlined copy at line 20): `(sol * 1_000_000_000.0) as u64`.  The `f64`
amount is modelled as a rational; the Rust `as u64` cast truncates toward
zero and saturates (negative values and values past `u64::MAX` clamp),
which on rationals is `Int.toNat` of the floor, capped at `2 ^ 64 - 1`. -/
def sol_to_lamports (sol : Rat) : Nat :=
  min (sol * 1000000000).floor.toNat (2 ^ 64 - 1)

/-- UTF-8 bytes of a string (`memo_text.as_bytes()`). -/
def utf8Bytes (s : String) : List Nat :=
  s.toUTF8.toList.map UInt8.toNat

/-- Mirror of `create_unsigned_transaction` (`native_token.rs` lines
12–33): build the transfer instruction, push one memo instruction only
when `memo` is `Some`, and assemble the transaction with `from` as
payer.  `from` and `to` are named `source` and `dest` because both are
reserved tokens in Lean. -/
def create_unsigned_transaction (amount : Rat) (dest : Pubkey)
    (memo : Option String) (source : Pubkey) : Transaction :=
  let lamports := sol_to_lamports amount
  let instructions := [system_instruction.transfer source dest lamports]
  let instructions :=
    match memo with
    | some memo_text =>
        instructions ++
          [Instruction.new_with_bytes spl_memo_id (utf8Bytes memo_text) []]
    | none => instructions
  Transaction.new_with_payer instructions (some source)

/-- Spec-side comparison definition for §4.5: the transaction built by a
call "with no memo field at all" — just the transfer instruction and the
payer, nothing else.  Used to state that `memo = None` emits no
placeholder bytes. -/
def create_transaction_without_memo (amount : Rat) (dest source : Pubkey) :
    Transaction :=
  Transaction.new_with_payer
    [system_instruction.transfer source dest (sol_to_lamports amount)]
    (some source)

/-! Model of the HTTP handlers of `src/mpc/src/main.rs` at the boundary
the claims need.  External effects (RNG, base58/base64 encoders, the RPC
client) are parameters. -/

/-- Mirror of `solana_sdk::signature::Keypair` at the boundary: the
public key and the 64 secret-keypair bytes returned by `to_bytes()`. -/
structure Keypair where
  pubkey : Pubkey
  keypair_bytes : List Nat

/-- Mirror of `GenerateResponse` (`main.rs` lines 27–31). -/
structure GenerateResponse where
  public_key : String
  private_key : String
deriving DecidableEq

/-- The part of an `actix_web::HttpResponse` the claims observe: the body
string. -/
structure HttpResponse where
  body : String
deriving DecidableEq

/-- Mirror of the `generate` handler (`main.rs` lines 121–129).  The
freshly generated keypair and the base58 encoder are parameters.  The
handler constructs the `GenerateResponse` (first component) and then
responds with `HttpResponse::Ok().body("Hello, world!")` (second
component); the constructed response is never placed in the body. -/
def generate (toBase58 : List Nat → String) (keypair : Keypair) :
    GenerateResponse × HttpResponse :=
  ({ public_key := toBase58 keypair.pubkey.val
   , private_key := toBase58 keypair.keypair_bytes },
   { body := "Hello, world!" })

/-- Mirror of `AggSendStep1Response` (`main.rs` lines 63–67). -/
structure AggSendStep1Response where
  message1 : String
  secret_state : String
deriving DecidableEq

/-- Mirror of the `agg_send_step1` handler (`main.rs` lines 210–231).
The pair produced by `step_one(keypair)` (whose source, `tss.rs`, is
absent from the crate) and the base64 encoder are parameters.  The
handler serializes both halves, builds the `AggSendStep1Response` (first
component) and then responds with the literal body `"Hello, world!"`
(second component). -/
def agg_send_step1 {P S : Type} (L : CurveLib P S)
    (toBase64 : List Nat → String) (message1 : AggMessage1 P)
    (secret_state : SecretAggStepOne P S) :
    AggSendStep1Response × HttpResponse :=
  ({ message1 := toBase64 (message1.serialize L [])
   , secret_state := toBase64 (secret_state.serialize L []) },
   { body := "Hello, world!" })

/-- Mirror of `SendSingleRequest` (`main.rs` lines 33–40). -/
structure SendSingleRequest where
  private_key : String
  to_addr : String
  amount : Rat
  memo : Option String
  rpc_url : Option String

/-- Mirror of `AggregateSigsBroadcastRequest` (`main.rs` lines 86–95). -/
structure AggregateSigsBroadcastRequest where
  amount : Rat
  to_addr : String
  memo : Option String
  recent_block_hash : String
  public_keys : List String
  partial_signatures : List String
  rpc_url : Option String

/-- Mirror of the RPC-endpoint selection in `send_single` (`main.rs`
lines 143–147):
`req.rpc_url.as_deref().unwrap_or("https://api.devnet.solana.com")`. -/
def send_single_rpc_url (req : SendSingleRequest) : String :=
  req.rpc_url.getD "https://api.devnet.solana.com"

/-- Mirror of the RPC-endpoint selection in
`aggregate_signatures_broadcast` (`main.rs` lines 335–339):
`req.rpc_url.as_deref().unwrap_or("https://api.devnet.solana.com")`. -/
def aggregate_signatures_broadcast_rpc_url
    (req : AggregateSigsBroadcastRequest) : String :=
  req.rpc_url.getD "https://api.devnet.solana.com"

/-! Models of the round-2 engine and the signature combiner.  Their
source file `src/mpc/src/tss.rs` is declared by `main.rs`
(`pub mod tss;`) but is not present under `src/`, so the two functions
are modelled from the spec. -/

/-- Modelled from the spec: `step_two` of the missing `src/mpc/src/tss.rs`
(called by `agg_send_step2`, `main.rs` lines 274–284).  Spec §4.3
Round 2, steps 1–2: first validate that the local key is present in
`all_public_keys`, failing with the key-not-in-set error
(`KeyPairIsNotInKeys`) otherwise; then validate that exactly one round-1
commitment per expected participant (each participant other than the
caller) is present, failing with the mismatched-message-count error
(`MismatchMessages`) otherwise.  Steps 3–5 (message reconstruction,
nonce combination and the partial-scalar computation) are abstracted as
the `compute` argument, which is only reached when both validations
pass. -/
def step_two {P : Type} (keypair_pub : Pubkey) (public_keys : List Pubkey)
    (first_messages : List (AggMessage1 P)) (compute : PartialSignature) :
    Except Error PartialSignature :=
  if keypair_pub ∈ public_keys then
    if (first_messages.map AggMessage1.sender).Perm
        (public_keys.erase keypair_pub) then
      .ok compute
    else .error .MismatchMessages
  else .error .KeyPairIsNotInKeys

/-- A transaction together with the combined signature attached to it. -/
structure SignedTransaction where
  transaction : Transaction
  signature : Signature
deriving DecidableEq

/-- Modelled from the spec: `sign_and_broadcast` of the missing
`src/mpc/src/tss.rs` (called by `aggregate_signatures_broadcast`,
`main.rs` lines 325–333).  Spec §4.4: aggregate the public keys (§4.2,
abstracted as `agg`), rebuild the exact transaction message bytes from
the given parameters (byte compilation abstracted as `message_bytes`),
sum the partial scalar contributions into one final signature
(abstracted as `combine`), and verify the result against the aggregated
public key and the recomputed message bytes (`verify`, the external
curve primitive); fail with `InvalidSignature` when verification fails,
otherwise attach the signature and return the signed transaction. -/
def sign_and_broadcast (agg : List Pubkey → Pubkey)
    (message_bytes : Transaction → List Nat → List Nat)
    (combine : List PartialSignature → Signature)
    (verify : Pubkey → List Nat → Signature → Bool)
    (amount : Rat) (dest : Pubkey) (memo : Option String)
    (recent_block_hash : List Nat) (public_keys : List Pubkey)
    (sigs : List PartialSignature) : Except Error SignedTransaction :=
  let agg_key := agg public_keys
  let tx := create_unsigned_transaction amount dest memo agg_key
  let msg := message_bytes tx recent_block_hash
  let final := combine sigs
  if verify agg_key msg final then .ok ⟨tx, final⟩
  else .error .InvalidSignature

/-! Concrete values used by the closed witnesses and counterexamples. -/

/-- Fixed all-one public key. -/
def pk1 : Pubkey := ⟨List.replicate 32 1, by simp⟩

/-- Fixed all-zero 64-byte signature. -/
def sig0 : Signature := ⟨List.replicate 64 0, by simp⟩

/-- Fixed partial signature built from `sig0`. -/
def psig0 : PartialSignature := ⟨sig0⟩

/-- Concrete `AggMessage1` over the toy curve library, sent by `pk0`. -/
def msgFromPk0 : AggMessage1 Unit := ⟨pk0, ⟨((), ())⟩⟩

/-- Concrete `AggMessage1` over the toy curve library, sent by `pk1`. -/
def msgFromPk1 : AggMessage1 Unit := ⟨pk1, ⟨((), ())⟩⟩

/-- Concrete `SecretAggStepOne` over the toy curve library. -/
def secretStepOne0 : SecretAggStepOne Unit Unit := ⟨⟨((), ())⟩, ⟨((), ())⟩⟩

/-- A 96-byte buffer (32 sender bytes, then 64 further bytes that parse
as one toy point followed by 31 spare bytes): long enough for the
`32 + 64` guard of `AggMessage1::deserialize`, too short for the
`[65..98]` slice. -/
def shortAggBuf : List Nat := List.replicate 32 7 ++ List.replicate 64 0

/-- A 128-byte all-zero buffer: long enough for the `128` guard of
`SecretAggStepOne::deserialize`, too short for the `[97..130]` slice. -/
def shortSecretBuf : List Nat := List.replicate 128 0

/-- Concrete `send-single` request with no `rpc_url`. -/
def reqSendNone : SendSingleRequest := ⟨"", "", 0, none, none⟩

/-- Concrete `send-single` request with an explicit `rpc_url`. -/
def reqSendSome : SendSingleRequest :=
  ⟨"", "", 0, none, some "http://localhost:8899"⟩

/-- Concrete broadcast request with no `rpc_url`. -/
def reqBroadcastNone : AggregateSigsBroadcastRequest :=
  ⟨0, "", none, "", [], [], none⟩

/-- Concrete broadcast request with an explicit `rpc_url`. -/
def reqBroadcastSome : AggregateSigsBroadcastRequest :=
  ⟨0, "", none, "", [], [], some "http://localhost:8899"⟩

/-! Theorems. -/

/-- C5: for every amount, destination and fee payer, the transaction
built by `create_unsigned_transaction` with `memo = None` equals — hence
serializes byte-identically to — the transaction built with no memo at
all (no placeholder bytes), and with `memo = Some text` exactly one memo
instruction is appended after the transfer instruction. -/
theorem memo_none_is_byte_identical (amount : Rat) (dest source : Pubkey)
    (text : String) :
    create_unsigned_transaction amount dest none source
        = create_transaction_without_memo amount dest source
      ∧ (create_unsigned_transaction amount dest (some text) source).instructions
        = (create_unsigned_transaction amount dest none source).instructions
          ++ [Instruction.new_with_bytes spl_memo_id (utf8Bytes text) []] :=
  ⟨rfl, rfl⟩

/-- C10: every transaction built by `create_unsigned_transaction` has
`from` as fee payer; its first instruction is the system transfer from
`from` to `to` of `(amount * 10^9)` truncated (saturating) to `u64`
lamports; and when a memo is present the second and last instruction is
addressed to the spl-memo program id with the memo's UTF-8 bytes and no
accounts. -/
theorem create_unsigned_transaction_shape (amount : Rat)
    (dest source : Pubkey) (memo : Option String) (text : String) :
    (create_unsigned_transaction amount dest memo source).fee_payer
        = some source
      ∧ (create_unsigned_transaction amount dest memo source).instructions.head?
        = some (system_instruction.transfer source dest
            (sol_to_lamports amount))
      ∧ system_instruction.transfer source dest (sol_to_lamports amount)
        = ⟨system_program_id, [⟨source, true, true⟩, ⟨dest, false, true⟩],
            [2, 0, 0, 0] ++ u64LeBytes (sol_to_lamports amount)⟩
      ∧ sol_to_lamports amount
        = min (amount * 1000000000).floor.toNat (2 ^ 64 - 1)
      ∧ (create_unsigned_transaction amount dest (some text) source).instructions
        = [system_instruction.transfer source dest (sol_to_lamports amount),
           ⟨spl_memo_id, [], utf8Bytes text⟩] := by
  refine ⟨?_, ?_, rfl, rfl, rfl⟩ <;> cases memo <;> rfl

/-- C9: the `send-single` and `combine-and-broadcast` handlers contact
the fixed default endpoint `https://api.devnet.solana.com` exactly when
the optional `rpc_url` field is absent, and use the supplied `rpc_url`
verbatim when it is present. -/
theorem rpc_url_defaulting (r1 : SendSingleRequest)
    (r2 : AggregateSigsBroadcastRequest) (u1 u2 : String) :
    (r1.rpc_url = none →
        send_single_rpc_url r1 = "https://api.devnet.solana.com")
      ∧ (r1.rpc_url = some u1 → send_single_rpc_url r1 = u1)
      ∧ (r2.rpc_url = none →
        aggregate_signatures_broadcast_rpc_url r2
          = "https://api.devnet.solana.com")
      ∧ (r2.rpc_url = some u2 →
        aggregate_signatures_broadcast_rpc_url r2 = u2) := by
  refine ⟨fun h => ?_, fun h => ?_, fun h => ?_, fun h => ?_⟩ <;>
    simp [send_single_rpc_url, aggregate_signatures_broadcast_rpc_url, h]

/-- Closed witness for C9 at concrete requests. -/
theorem rpc_url_defaulting_witness :
    send_single_rpc_url reqSendNone = "https://api.devnet.solana.com"
      ∧ send_single_rpc_url reqSendSome = "http://localhost:8899"
      ∧ aggregate_signatures_broadcast_rpc_url reqBroadcastNone
        = "https://api.devnet.solana.com"
      ∧ aggregate_signatures_broadcast_rpc_url reqBroadcastSome
        = "http://localhost:8899" :=
  ⟨(rpc_url_defaulting reqSendNone reqBroadcastNone "" "").1 rfl,
   (rpc_url_defaulting reqSendSome reqBroadcastNone
      "http://localhost:8899" "").2.1 rfl,
   (rpc_url_defaulting reqSendNone reqBroadcastNone "" "").2.2.1 rfl,
   (rpc_url_defaulting reqSendNone reqBroadcastSome ""
      "http://localhost:8899").2.2.2 rfl⟩

/-- C3 (refuting evaluation): a successful call to `generate` or to
`agg_send_step1` returns the constant HTTP body `"Hello, world!"` — the
handler builds the documented response struct (first components below)
but never puts it in the response, so the body carries neither the
base58 keys nor the base64 commitment/secret bundle. -/
theorem handler_bodies_are_constant {P S : Type} (L : CurveLib P S)
    (toBase58 toBase64 : List Nat → String) (kp : Keypair)
    (m : AggMessage1 P) (s : SecretAggStepOne P S) :
    (generate toBase58 kp).1.public_key = toBase58 kp.pubkey.val
      ∧ (generate toBase58 kp).2.body = "Hello, world!"
      ∧ (agg_send_step1 L toBase64 m s).1.message1
        = toBase64 (m.serialize L [])
      ∧ (agg_send_step1 L toBase64 m s).2.body = "Hello, world!" :=
  ⟨rfl, rfl, rfl, rfl⟩

/-- C6: round 2 (`step_two`) fails with `KeyPairIsNotInKeys` whenever
the caller's public key is absent from `all_public_keys`; fails with
`MismatchMessages` unless exactly one round-1 commitment per expected
participant (each key other than the caller's) is present; and only
when both validations pass does it produce a partial signature. -/
theorem step_two_validation {P : Type} (kp : Pubkey)
    (keys : List Pubkey) (msgs : List (AggMessage1 P))
    (compute : PartialSignature) :
    (kp ∉ keys →
        step_two kp keys msgs compute = .error .KeyPairIsNotInKeys)
      ∧ (kp ∈ keys →
          ¬ (msgs.map AggMessage1.sender).Perm (keys.erase kp) →
          step_two kp keys msgs compute = .error .MismatchMessages)
      ∧ (kp ∈ keys →
          (msgs.map AggMessage1.sender).Perm (keys.erase kp) →
          step_two kp keys msgs compute = .ok compute) := by
  refine ⟨fun h => ?_, fun h1 h2 => ?_, fun h1 h2 => ?_⟩ <;>
    simp [step_two, *]

/-- Closed witness for C6: a missing key, a wrong commitment count, and
a successful round, each at concrete inputs. -/
theorem step_two_validation_witness :
    step_two (P := Unit) pk0 [pk1] [] psig0 = .error .KeyPairIsNotInKeys
      ∧ step_two (P := Unit) pk0 [pk0, pk1] [] psig0
        = .error .MismatchMessages
      ∧ step_two pk0 [pk0, pk1] [msgFromPk1] psig0 = .ok psig0 :=
  ⟨(step_two_validation pk0 [pk1] [] psig0).1 (by decide),
   (step_two_validation pk0 [pk0, pk1] [] psig0).2.1 (by decide)
     (by decide),
   (step_two_validation pk0 [pk0, pk1] [msgFromPk1] psig0).2.2
     (by decide) (by decide)⟩

/-- C7: `sign_and_broadcast` returns a signed transaction only when the
combined signature verifies against the aggregated public key and the
recomputed transaction message bytes; whenever verification fails it
returns `InvalidSignature` and no transaction. -/
theorem sign_and_broadcast_verified (agg : List Pubkey → Pubkey)
    (message_bytes : Transaction → List Nat → List Nat)
    (combine : List PartialSignature → Signature)
    (verify : Pubkey → List Nat → Signature → Bool)
    (amount : Rat) (dest : Pubkey) (memo : Option String)
    (recent_block_hash : List Nat) (public_keys : List Pubkey)
    (sigs : List PartialSignature) :
    (∀ st, sign_and_broadcast agg message_bytes combine verify amount
          dest memo recent_block_hash public_keys sigs = .ok st →
        st.transaction
            = create_unsigned_transaction amount dest memo
                (agg public_keys)
          ∧ st.signature = combine sigs
          ∧ verify (agg public_keys)
              (message_bytes
                (create_unsigned_transaction amount dest memo
                  (agg public_keys)) recent_block_hash)
              st.signature = true)
      ∧ (verify (agg public_keys)
            (message_bytes
              (create_unsigned_transaction amount dest memo
                (agg public_keys)) recent_block_hash)
            (combine sigs) = false →
          sign_and_broadcast agg message_bytes combine verify amount
            dest memo recent_block_hash public_keys sigs
            = .error .InvalidSignature) := by
  constructor
  · intro st h
    by_cases hv : verify (agg public_keys)
        (message_bytes
          (create_unsigned_transaction amount dest memo
            (agg public_keys)) recent_block_hash)
        (combine sigs)
    · simp only [sign_and_broadcast, hv, if_true] at h
      cases h
      exact ⟨rfl, rfl, hv⟩
    · simp only [sign_and_broadcast, if_neg hv] at h
      exact absurd h (by simp)
  · intro hv
    simp only [sign_and_broadcast, hv, Bool.false_eq_true, if_false]

/-- Closed witness for C7: with an always-true verifier the returned
transaction's signature verifies; with an always-false verifier the
result is `InvalidSignature`. -/
theorem sign_and_broadcast_verified_witness :
    ((fun _ _ _ => true : Pubkey → List Nat → Signature → Bool)
        (pk0) ([] : List Nat) sig0 = true)
      ∧ sign_and_broadcast (fun _ => pk0) (fun _ _ => [])
          (fun _ => sig0) (fun _ _ _ => false) 0 pk0 none [] [] []
          = .error .InvalidSignature :=
  ⟨((sign_and_broadcast_verified (fun _ => pk0) (fun _ _ => [])
       (fun _ => sig0) (fun _ _ _ => true) 0 pk0 none [] [] []).1
      ⟨create_unsigned_transaction 0 pk0 none pk0, sig0⟩ rfl).2.2,
   (sign_and_broadcast_verified (fun _ => pk0) (fun _ _ => [])
       (fun _ => sig0) (fun _ _ _ => false) 0 pk0 none [] [] []).2 rfl⟩

/-- C8: `PartialSignature::deserialize` succeeds on every buffer of
length at least 64, returning the signature built from exactly the first
64 bytes (trailing bytes silently ignored); it returns `BufferTooShort`
on every shorter buffer; and `serialize` always appends exactly 64
bytes. -/
theorem partialSignature_codec_exact (b s buf : List Nat)
    (m : PartialSignature) (h64 : 64 ≤ b.length)
    (hshort : s.length < 64) :
    (∃ ps : PartialSignature,
        PartialSignature.deserialize b = .ok ps
          ∧ ps.sig.val = b.take 64)
      ∧ PartialSignature.deserialize s = .fails .BufferTooShort
      ∧ (m.serialize buf).length = buf.length + 64 := by
  refine ⟨⟨⟨⟨b.take 64, by simp [List.length_take]; omega⟩⟩, ?_, rfl⟩,
    ?_, ?_⟩
  · rw [PartialSignature.deserialize,
      dif_neg (by simp [partialSignatureGuard]; omega)]
  · rw [PartialSignature.deserialize,
      dif_pos (by simpa [partialSignatureGuard] using hshort)]
  · simp [PartialSignature.serialize, m.sig.property]

/-- Closed witness for C8 at a 70-byte and a 10-byte buffer. -/
theorem partialSignature_codec_exact_witness :
    (∃ ps : PartialSignature,
        PartialSignature.deserialize (List.replicate 70 5) = .ok ps
          ∧ ps.sig.val = (List.replicate 70 5).take 64)
      ∧ PartialSignature.deserialize (List.replicate 10 0)
        = .fails .BufferTooShort
      ∧ (psig0.serialize [1, 2, 3]).length = [1, 2, 3].length + 64 :=
  partialSignature_codec_exact (List.replicate 70 5)
    (List.replicate 10 0) [1, 2, 3] psig0 (by decide) (by decide)

/-- C1 (refuting evaluation, code bug): the length guards of
`AggMessage1::deserialize` (`32 + 64`) and `SecretAggStepOne::deserialize`
(`128`) under-count the bytes the field slices actually read (98 and 130
respectively), so a 96- or 97-byte `AggMessage1` buffer whose `[32..65]`
slice parses as a point — and a 128- or 129-byte `SecretAggStepOne`
buffer whose scalar/first-point slices parse — passes the guard and then
indexes past the buffer's end (a panic), instead of returning an
error. -/
theorem deserialize_guard_gap_panics {P S : Type} (L : CurveLib P S)
    (b c : List Nat) (r rp : P) (k1 k2 : S)
    (hb : b.length = 96 ∨ b.length = 97)
    (hr : L.pointFromBytes ((b.drop 32).take 33) = .ok r)
    (hc : c.length = 128 ∨ c.length = 129)
    (hk1 : L.scalarFromBytes (c.take 32) = .ok k1)
    (hk2 : L.scalarFromBytes ((c.drop 32).take 32) = .ok k2)
    (hrp : L.pointFromBytes ((c.drop 64).take 33) = .ok rp) :
    AggMessage1.deserialize L b = .panics
      ∧ SecretAggStepOne.deserialize L c = .panics := by
  constructor
  · rw [AggMessage1.deserialize,
      dif_neg (by simp only [aggMessage1Guard]; omega)]
    simp only [hr]
    rw [if_pos (by omega)]
  · rw [SecretAggStepOne.deserialize,
      if_neg (by simp only [secretAggStepOneGuard]; omega)]
    simp only [hk1, hk2, hrp]
    rw [if_pos (by omega)]

/-- Closed witness for C1: the toy curve library and the concrete 96-
and 128-byte buffers from the definitions above make both decoders
panic. -/
theorem deserialize_guard_gap_panics_witness :
    AggMessage1.deserialize toyLib shortAggBuf = .panics
      ∧ SecretAggStepOne.deserialize toyLib shortSecretBuf = .panics :=
  deserialize_guard_gap_panics toyLib shortAggBuf shortSecretBuf () ()
    () () (Or.inl (by decide)) (by decide) (Or.inl (by decide))
    (by decide) (by decide) (by decide)

/-- C4: on buffers long enough for all field slices (98 bytes for
`AggMessage1`, 130 for `SecretAggStepOne`), the decoders wrap the curve
library's rejection of a malformed point encoding as `InvalidPoint` and
of a malformed scalar encoding as `InvalidScalar`, in every field
position of both messages (either point of `AggMessage1`; either scalar
and either point of `SecretAggStepOne`), and they never panic. -/
theorem deserialize_invalid_encoding_errors {P S : Type}
    (L : CurveLib P S) (b d c1 c2 c3 c4 bb cc : List Nat)
    (ep1 ep2 es1 es2 ep3 ep4 : ErrorKey) (rd ra : P)
    (ka kb kc kd ke : S)
    (hb : 98 ≤ b.length)
    (hp : L.pointFromBytes ((b.drop 32).take 33) = .error ep1)
    (hd : 98 ≤ d.length)
    (hd1 : L.pointFromBytes ((d.drop 32).take 33) = .ok rd)
    (hd2 : L.pointFromBytes ((d.drop 65).take 33) = .error ep2)
    (hc1 : 130 ≤ c1.length)
    (hs1 : L.scalarFromBytes (c1.take 32) = .error es1)
    (hc2 : 130 ≤ c2.length)
    (hc2a : L.scalarFromBytes (c2.take 32) = .ok ka)
    (hs2 : L.scalarFromBytes ((c2.drop 32).take 32) = .error es2)
    (hc3 : 130 ≤ c3.length)
    (hc3a : L.scalarFromBytes (c3.take 32) = .ok kb)
    (hc3b : L.scalarFromBytes ((c3.drop 32).take 32) = .ok kc)
    (hp3 : L.pointFromBytes ((c3.drop 64).take 33) = .error ep3)
    (hc4 : 130 ≤ c4.length)
    (hc4a : L.scalarFromBytes (c4.take 32) = .ok kd)
    (hc4b : L.scalarFromBytes ((c4.drop 32).take 32) = .ok ke)
    (hc4c : L.pointFromBytes ((c4.drop 64).take 33) = .ok ra)
    (hp4 : L.pointFromBytes ((c4.drop 97).take 33) = .error ep4)
    (hbb : 98 ≤ bb.length) (hcc : 130 ≤ cc.length) :
    AggMessage1.deserialize L b = .fails (.InvalidPoint ep1)
      ∧ AggMessage1.deserialize L d = .fails (.InvalidPoint ep2)
      ∧ SecretAggStepOne.deserialize L c1 = .fails (.InvalidScalar es1)
      ∧ SecretAggStepOne.deserialize L c2 = .fails (.InvalidScalar es2)
      ∧ SecretAggStepOne.deserialize L c3 = .fails (.InvalidPoint ep3)
      ∧ SecretAggStepOne.deserialize L c4 = .fails (.InvalidPoint ep4)
      ∧ AggMessage1.deserialize L bb ≠ .panics
      ∧ SecretAggStepOne.deserialize L cc ≠ .panics := by
  refine ⟨?_, ?_, ?_, ?_, ?_, ?_, ?_, ?_⟩
  · rw [AggMessage1.deserialize,
      dif_neg (by simp only [aggMessage1Guard]; omega)]
    simp only [hp]
  · rw [AggMessage1.deserialize,
      dif_neg (by simp only [aggMessage1Guard]; omega)]
    simp only [hd1]
    rw [if_neg (by omega)]
    simp only [hd2]
  · rw [SecretAggStepOne.deserialize,
      if_neg (by simp only [secretAggStepOneGuard]; omega)]
    simp only [hs1]
  · rw [SecretAggStepOne.deserialize,
      if_neg (by simp only [secretAggStepOneGuard]; omega)]
    simp only [hc2a, hs2]
  · rw [SecretAggStepOne.deserialize,
      if_neg (by simp only [secretAggStepOneGuard]; omega)]
    simp only [hc3a, hc3b, hp3]
  · rw [SecretAggStepOne.deserialize,
      if_neg (by simp only [secretAggStepOneGuard]; omega)]
    simp only [hc4a, hc4b, hc4c]
    rw [if_neg (by omega)]
    simp only [hp4]
  · rw [AggMessage1.deserialize,
      dif_neg (by simp only [aggMessage1Guard]; omega)]
    cases hx : L.pointFromBytes ((bb.drop 32).take 33) with
    | error e => simp [hx]
    | ok r1 =>
      simp only [hx]
      rw [if_neg (by omega)]
      cases hy : L.pointFromBytes ((bb.drop 65).take 33) with
      | error e => simp [hy]
      | ok r2 => simp [hy]
  · rw [SecretAggStepOne.deserialize,
      if_neg (by simp only [secretAggStepOneGuard]; omega)]
    cases hx : L.scalarFromBytes (cc.take 32) with
    | error e => simp [hx]
    | ok k1 =>
      cases hy : L.scalarFromBytes ((cc.drop 32).take 32) with
      | error e => simp [hx, hy]
      | ok k2 =>
        cases hz : L.pointFromBytes ((cc.drop 64).take 33) with
        | error e => simp [hx, hy, hz]
        | ok r1 =>
          simp only [hx, hy, hz]
          rw [if_neg (by omega)]
          cases hw : L.pointFromBytes ((cc.drop 97).take 33) with
          | error e => simp [hw]
          | ok r2 => simp [hw]

/-- Closed witness for C4: toy-library buffers placing the invalid
encoding in each field position of both decoders — first point and
second point of `AggMessage1`, first scalar, second scalar, first point
and second point of `SecretAggStepOne` — plus two well-formed long
buffers for the no-panic conjuncts. -/
theorem deserialize_invalid_encoding_errors_witness :
    AggMessage1.deserialize toyLib (List.replicate 98 1)
        = .fails (.InvalidPoint .InvalidPublicKey)
      ∧ AggMessage1.deserialize toyLib
          (List.replicate 32 9 ++ List.replicate 33 0
            ++ List.replicate 33 1)
        = .fails (.InvalidPoint .InvalidPublicKey)
      ∧ SecretAggStepOne.deserialize toyLib (List.replicate 130 1)
        = .fails (.InvalidScalar .InvalidPublicKey)
      ∧ SecretAggStepOne.deserialize toyLib
          (List.replicate 32 0 ++ List.replicate 98 1)
        = .fails (.InvalidScalar .InvalidPublicKey)
      ∧ SecretAggStepOne.deserialize toyLib
          (List.replicate 64 0 ++ List.replicate 66 1)
        = .fails (.InvalidPoint .InvalidPublicKey)
      ∧ SecretAggStepOne.deserialize toyLib
          (List.replicate 97 0 ++ List.replicate 33 1)
        = .fails (.InvalidPoint .InvalidPublicKey)
      ∧ AggMessage1.deserialize toyLib (List.replicate 98 0) ≠ .panics
      ∧ SecretAggStepOne.deserialize toyLib (List.replicate 130 0)
        ≠ .panics :=
  deserialize_invalid_encoding_errors toyLib (List.replicate 98 1)
    (List.replicate 32 9 ++ List.replicate 33 0 ++ List.replicate 33 1)
    (List.replicate 130 1)
    (List.replicate 32 0 ++ List.replicate 98 1)
    (List.replicate 64 0 ++ List.replicate 66 1)
    (List.replicate 97 0 ++ List.replicate 33 1)
    (List.replicate 98 0) (List.replicate 130 0) .InvalidPublicKey
    .InvalidPublicKey .InvalidPublicKey .InvalidPublicKey
    .InvalidPublicKey .InvalidPublicKey () () () () () () ()
    (by decide) (by decide) (by decide) (by decide) (by decide)
    (by decide) (by decide) (by decide) (by decide) (by decide)
    (by decide) (by decide) (by decide) (by decide) (by decide)
    (by decide) (by decide) (by decide) (by decide) (by decide)
    (by decide)

/-- C2 (amended): assuming the curve library's contract — compressed
points encode to 33 bytes, scalars to 32, and `from_bytes` inverts
`to_bytes` — every protocol message survives a serialize/deserialize
round trip unchanged; but only `PartialSignature`'s serialized length
equals its guard: `AggMessage1` serializes to `guard + 2` bytes and
`SecretAggStepOne` to `guard + 2` bytes, so for those two the guard
minimum understates the serialized length. -/
theorem serde_roundtrip {P S : Type} (L : CurveLib P S)
    (hpl : ∀ p, (L.pointToBytes p).length = 33)
    (hpi : ∀ p, L.pointFromBytes (L.pointToBytes p) = .ok p)
    (hsl : ∀ s, (L.scalarToBytes s).length = 32)
    (hsi : ∀ s, L.scalarFromBytes (L.scalarToBytes s) = .ok s)
    (m1 : AggMessage1 P) (m2 : SecretAggStepOne P S)
    (m3 : PartialSignature) :
    AggMessage1.deserialize L (m1.serialize L []) = .ok m1
      ∧ SecretAggStepOne.deserialize L (m2.serialize L []) = .ok m2
      ∧ PartialSignature.deserialize (m3.serialize []) = .ok m3
      ∧ (m1.serialize L []).length = aggMessage1Guard + 2
      ∧ (m2.serialize L []).length = secretAggStepOneGuard + 2
      ∧ (m3.serialize []).length = partialSignatureGuard := by
  obtain ⟨⟨sb, hsb⟩, ⟨⟨r1, r2⟩⟩⟩ := m1
  obtain ⟨⟨⟨k1, k2⟩⟩, ⟨⟨q1, q2⟩⟩⟩ := m2
  obtain ⟨⟨sv, hsv⟩⟩ := m3
  refine ⟨?_, ?_, ?_, ?_, ?_, ?_⟩
  · -- AggMessage1 round trip
    have h1 : (sb ++ (L.pointToBytes r1 ++ L.pointToBytes r2)).length
        = 98 := by
      simp [List.length_append, hsb, hpl]
    have h2 : (sb ++ (L.pointToBytes r1 ++ L.pointToBytes r2)).take 32
        = sb := List.take_left' hsb
    have h3 : (sb ++ (L.pointToBytes r1 ++ L.pointToBytes r2)).drop 32
        = L.pointToBytes r1 ++ L.pointToBytes r2 := List.drop_left' hsb
    have h4 : (L.pointToBytes r1 ++ L.pointToBytes r2).take 33
        = L.pointToBytes r1 := List.take_left' (hpl r1)
    have h5 : (sb ++ (L.pointToBytes r1 ++ L.pointToBytes r2)).drop 65
        = L.pointToBytes r2 := by
      rw [show (65 : Nat) = sb.length + 33 by simp [hsb],
        List.drop_append,
        show (33 : Nat) = (L.pointToBytes r1).length from (hpl r1).symm,
        List.drop_left]
    have h6 : (L.pointToBytes r2).take 33 = L.pointToBytes r2 :=
      List.take_of_length_le (by rw [hpl])
    simp only [AggMessage1.serialize, List.nil_append, List.append_assoc]
    simp only [AggMessage1.deserialize]
    rw [dif_neg (by simp only [h1, aggMessage1Guard]; omega)]
    simp only [h3, h4, hpi]
    rw [if_neg (by simp only [h1]; omega)]
    simp only [h5, h6, hpi]
    simp [h2]
  · -- SecretAggStepOne round trip
    have g1 : (L.scalarToBytes k1 ++ (L.scalarToBytes k2
        ++ (L.pointToBytes q1 ++ L.pointToBytes q2))).length = 130 := by
      simp [List.length_append, hsl, hpl]
    have g2 : (L.scalarToBytes k1 ++ (L.scalarToBytes k2
        ++ (L.pointToBytes q1 ++ L.pointToBytes q2))).take 32
        = L.scalarToBytes k1 := List.take_left' (hsl k1)
    have g3 : (L.scalarToBytes k1 ++ (L.scalarToBytes k2
        ++ (L.pointToBytes q1 ++ L.pointToBytes q2))).drop 32
        = L.scalarToBytes k2 ++ (L.pointToBytes q1 ++ L.pointToBytes q2) :=
      List.drop_left' (hsl k1)
    have g4 : (L.scalarToBytes k2
        ++ (L.pointToBytes q1 ++ L.pointToBytes q2)).take 32
        = L.scalarToBytes k2 := List.take_left' (hsl k2)
    have g5 : (L.scalarToBytes k1 ++ (L.scalarToBytes k2
        ++ (L.pointToBytes q1 ++ L.pointToBytes q2))).drop 64
        = L.pointToBytes q1 ++ L.pointToBytes q2 := by
      rw [show (64 : Nat) = (L.scalarToBytes k1).length + 32 by
          simp [hsl], List.drop_append]
      exact List.drop_left' (hsl k2)
    have g6 : (L.pointToBytes q1 ++ L.pointToBytes q2).take 33
        = L.pointToBytes q1 := List.take_left' (hpl q1)
    have g7 : (L.scalarToBytes k1 ++ (L.scalarToBytes k2
        ++ (L.pointToBytes q1 ++ L.pointToBytes q2))).drop 97
        = L.pointToBytes q2 := by
      rw [show (97 : Nat) = (L.scalarToBytes k1).length + 65 by
          simp [hsl], List.drop_append,
        show (65 : Nat) = (L.scalarToBytes k2).length + 33 by
          simp [hsl], List.drop_append,
        show (33 : Nat) = (L.pointToBytes q1).length from (hpl q1).symm,
        List.drop_left]
    have g8 : (L.pointToBytes q2).take 33 = L.pointToBytes q2 :=
      List.take_of_length_le (by rw [hpl])
    simp only [SecretAggStepOne.serialize, List.nil_append,
      List.append_assoc]
    simp only [SecretAggStepOne.deserialize]
    rw [if_neg (by simp only [g1, secretAggStepOneGuard]; omega)]
    simp only [g2, hsi, g3, g4, g5, g6, hpi]
    rw [if_neg (by simp only [g1]; omega)]
    simp only [g7, g8, hpi]
  · -- PartialSignature round trip
    simp only [PartialSignature.serialize, List.nil_append]
    simp only [PartialSignature.deserialize]
    rw [dif_neg (by simp only [hsv, partialSignatureGuard]; omega)]
    simp [List.take_of_length_le (le_of_eq hsv)]
  · simp [AggMessage1.serialize, aggMessage1Guard, hsb, hpl]
  · simp [SecretAggStepOne.serialize, secretAggStepOneGuard, hsl, hpl]
  · simp [PartialSignature.serialize, partialSignatureGuard, hsv]

/-- Counterexample for C2 as frozen: for the concrete message
`msgFromPk0` over the toy curve library, the serialized buffer's length
(98) is not the guard minimum (96) of `AggMessage1::deserialize`. -/
theorem serde_length_counterexample :
    ¬ (AggMessage1.serialize toyLib msgFromPk0 []).length
        = aggMessage1Guard := by decide

/-- Closed witness for the amended C2 at the toy curve library and
concrete messages. -/
theorem serde_roundtrip_witness :
    AggMessage1.deserialize toyLib (msgFromPk0.serialize toyLib [])
        = .ok msgFromPk0
      ∧ SecretAggStepOne.deserialize toyLib
          (secretStepOne0.serialize toyLib []) = .ok secretStepOne0
      ∧ PartialSignature.deserialize (psig0.serialize []) = .ok psig0
      ∧ (msgFromPk0.serialize toyLib []).length = aggMessage1Guard + 2
      ∧ (secretStepOne0.serialize toyLib []).length
        = secretAggStepOneGuard + 2
      ∧ (psig0.serialize []).length = partialSignatureGuard :=
  serde_roundtrip toyLib (fun p => by cases p; decide)
    (fun p => by cases p; decide) (fun s => by cases s; decide)
    (fun s => by cases s; decide) msgFromPk0 secretStepOne0 psig0

end MpcSpec
